import Mathlib

/-!
Shallow embedding of the spaced-repetition scheduling engine from
`src/electron/scheduler.ts`.

Modelling conventions: JavaScript numbers are modelled exactly — the
integer-valued fields (`ivl_days`, `reps`, `lapses`, `due_ts`,
`learning_stage`, `suspended`) and timestamps as `ℤ`, the real-valued
`ease` and `difficulty` as `ℚ`; `Math.round` on nonnegative arguments is
round-half-up, `⌊x + 1/2⌋`; the JS truthiness test `if (suspended)` is
`suspended ≠ 0` and `ivl_days || 1` is `if ivl_days = 0 then 1 else
ivl_days`; `throw new Error` is `Except.error`.
-/

structure SchedulerState where
  ivl_days : ℤ
  ease : ℚ
  reps : ℤ
  lapses : ℤ
  due_ts : ℤ
  learning_stage : ℤ
  difficulty : ℚ
  suspended : ℤ
deriving DecidableEq, Repr

inductive SchedulerError where
  | invalidRating
deriving DecidableEq, Repr

def ONE_MIN_MS : ℤ := 60000

def ONE_HOUR_MS : ℤ := 60 * ONE_MIN_MS

def ONE_DAY_MS : ℤ := 86400000

/-- Short learning steps for new/lapsed cards: 10 minutes, then 1 hour. -/
def LEARNING_STEPS_MS : List ℤ := [10 * ONE_MIN_MS, 60 * ONE_MIN_MS]

/-- Leech threshold: auto-suspend after this many lapses. -/
def LEECH_LAPSES : ℤ := 8

def clamp (n lo hi : ℚ) : ℚ := min hi (max lo n)

def easeFromDifficulty (difficulty : ℚ) : ℚ :=
  clamp (5/2 - difficulty * (12/10)) (13/10) (26/10)

/-- JavaScript `Math.round` for the nonnegative domain used here. -/
def jsRound (x : ℚ) : ℤ := ⌊x + 1/2⌋

/-- Difficulty drift applied at the top of `schedule` (lines 48-51):
a fixed per-rating delta, clamped to [0, 1]; unknown ratings leave
difficulty untouched (they error later). -/
def driftDifficulty (difficulty : ℚ) (rating : ℤ) : ℚ :=
  if rating = 0 then clamp (difficulty + 12/100) 0 1
  else if rating = 1 then clamp (difficulty + 6/100) 0 1
  else if rating = 2 then clamp (difficulty - 2/100) 0 1
  else if rating = 3 then clamp (difficulty - 8/100) 0 1
  else difficulty

/-- The review-mode `switch` of `schedule` (lines 121-158), reached either
from review mode or by falling through learning mode on an unknown rating.
`ease` and `difficulty` are the already-drifted local values; the other
locals still hold the input state's fields at this point. -/
def reviewStep (state : SchedulerState) (ease difficulty : ℚ)
    (rating now : ℤ) : Except SchedulerError SchedulerState :=
  if rating = 0 then
    let lapses := state.lapses + 1
    let suspended : ℤ := if lapses ≥ LEECH_LAPSES then 1 else state.suspended
    Except.ok {
      ivl_days := max 1 (jsRound ((state.ivl_days : ℚ) * (5/10))),
      ease := ease,
      reps := state.reps,
      lapses := lapses,
      due_ts := now + LEARNING_STEPS_MS.getD 0 0,
      learning_stage := 1,
      difficulty := difficulty,
      suspended := suspended }
  else if rating = 1 ∨ rating = 2 ∨ rating = 3 then
    let ivl_days : ℤ :=
      if rating = 1 then
        max 1 (jsRound ((state.ivl_days : ℚ) * (7/10 + (1/10) * difficulty)))
      else if rating = 2 then
        max 1 (jsRound ((state.ivl_days : ℚ) * (1 + ease * (5/10))))
      else
        max 1 (jsRound ((state.ivl_days : ℚ) * (12/10 + ease * (8/10))))
    Except.ok {
      ivl_days := ivl_days,
      ease := ease,
      reps := max 0 state.reps + 1,
      lapses := state.lapses,
      due_ts := now + ivl_days * ONE_DAY_MS,
      learning_stage := state.learning_stage,
      difficulty := difficulty,
      suspended := state.suspended }
  else Except.error SchedulerError.invalidRating

/-- The state-transition function `schedule(state, rating, now)`
(lines 35-159 of `src/electron/scheduler.ts`). -/
def schedule (state : SchedulerState) (rating : ℤ) (now : ℤ) :
    Except SchedulerError SchedulerState :=
  if state.suspended ≠ 0 then
    Except.ok state
  else
    let difficulty := driftDifficulty state.difficulty rating
    let ease := easeFromDifficulty difficulty
    if state.learning_stage > 0 ∨ state.reps = 0 then
      if rating = 0 then
        let lapses := state.lapses + 1
        let suspended : ℤ :=
          if lapses ≥ LEECH_LAPSES then 1 else state.suspended
        Except.ok {
          ivl_days := max 1 (if state.ivl_days = 0 then 1 else state.ivl_days),
          ease := ease,
          reps := max 0 state.reps,
          lapses := lapses,
          due_ts := now + LEARNING_STEPS_MS.getD 0 0,
          learning_stage := 1,
          difficulty := difficulty,
          suspended := suspended }
      else if rating = 1 ∨ rating = 2 then
        let stage0 : ℤ :=
          if state.reps = 0 ∧ state.learning_stage = 0 then 1
          else state.learning_stage
        let stage1 : ℤ := if rating = 2 then stage0 + 1 else stage0
        if stage1 ≤ (LEARNING_STEPS_MS.length : ℤ) then
          let stepIdx : ℤ := max 0 (stage1 - 1)
          Except.ok {
            ivl_days :=
              max 1 (if state.ivl_days = 0 then 1 else state.ivl_days),
            ease := ease,
            reps := max 0 state.reps,
            lapses := state.lapses,
            due_ts := now + LEARNING_STEPS_MS.getD stepIdx.toNat 0,
            learning_stage := stage1,
            difficulty := difficulty,
            suspended := state.suspended }
        else
          Except.ok {
            ivl_days := 1,
            ease := ease,
            reps := max 0 state.reps + 1,
            lapses := state.lapses,
            due_ts := now + ONE_DAY_MS,
            learning_stage := 0,
            difficulty := difficulty,
            suspended := state.suspended }
      else if rating = 3 then
        let ivl_days : ℤ := max 1 (jsRound (2 + 2 * ease))
        Except.ok {
          ivl_days := ivl_days,
          ease := ease,
          reps := max 0 state.reps + 1,
          lapses := state.lapses,
          due_ts := now + ivl_days * ONE_DAY_MS,
          learning_stage := 0,
          difficulty := difficulty,
          suspended := state.suspended }
      else
        reviewStep state ease difficulty rating now
    else
      reviewStep state ease difficulty rating now

/-- The brand-new card state of the spec's lifecycle section; `due_ts` is
left at 0 (the claims never constrain the input `due_ts`). -/
def brandNewCard : SchedulerState :=
  { ivl_days := 0, ease := 5/2, reps := 0, lapses := 0, due_ts := 0,
    learning_stage := 0, difficulty := 1/2, suspended := 0 }

/-- The graduated review card of the review-mode-fail test property. -/
def reviewFailCard : SchedulerState :=
  { ivl_days := 10, ease := 2, reps := 5, lapses := 0, due_ts := 0,
    learning_stage := 0, difficulty := 1/2, suspended := 0 }

/-- A suspended card (otherwise brand-new). -/
def suspendedCard : SchedulerState := { brandNewCard with suspended := 1 }

/-- A suspended card carrying an out-of-range `difficulty`. -/
def oddSuspendedCard : SchedulerState :=
  { brandNewCard with difficulty := 5, suspended := 1 }

/-- A non-suspended card one lapse short of the leech threshold. -/
def leechEdgeCard : SchedulerState := { brandNewCard with lapses := 7 }

lemma clamp_mem (n lo hi : ℚ) (h : lo ≤ hi) :
    lo ≤ clamp n lo hi ∧ clamp n lo hi ≤ hi :=
  ⟨le_min h (le_max_left lo n), min_le_left hi _⟩

lemma driftDifficulty_mem (d : ℚ) (r : ℤ)
    (hr : r = 0 ∨ r = 1 ∨ r = 2 ∨ r = 3) :
    0 ≤ driftDifficulty d r ∧ driftDifficulty d r ≤ 1 := by
  rcases hr with rfl | rfl | rfl | rfl <;>
    · simp only [driftDifficulty]
      norm_num
      exact clamp_mem _ _ _ (by norm_num)

lemma easeFromDifficulty_mem (d : ℚ) :
    13/10 ≤ easeFromDifficulty d ∧ easeFromDifficulty d ≤ 26/10 := by
  unfold easeFromDifficulty
  exact clamp_mem _ _ _ (by norm_num)

lemma steps_getD_nonneg (n : ℕ) : (0:ℤ) ≤ (LEARNING_STEPS_MS[n]?).getD 0 := by
  rcases n with _ | _ | n <;> simp [LEARNING_STEPS_MS, ONE_MIN_MS]

/-- Lines 42-45: the suspension short-circuit returns the input state. -/
lemma schedule_of_suspended (s : SchedulerState) (r now : ℤ)
    (h : s.suspended ≠ 0) : schedule s r now = Except.ok s := by
  simp [schedule, h]

/-- Master characterisation of every successful non-suspended transition:
for a valid rating the call succeeds, the output carries the drifted
difficulty and the ease derived from it, `reps` does not decrease, and
`due_ts` is at least `now`. -/
lemma schedule_ok_spec (s : SchedulerState) (r now : ℤ)
    (hs : s.suspended = 0) (hr : r = 0 ∨ r = 1 ∨ r = 2 ∨ r = 3) :
    ∃ s', schedule s r now = Except.ok s' ∧
      s'.difficulty = driftDifficulty s.difficulty r ∧
      s'.ease = easeFromDifficulty (driftDifficulty s.difficulty r) ∧
      s.reps ≤ s'.reps ∧
      now ≤ s'.due_ts := by
  rcases hr with rfl | rfl | rfl | rfl <;>
    simp only [schedule, reviewStep, hs] <;>
    norm_num <;>
    split_ifs <;>
    refine ⟨_, rfl, ?_, ?_, ?_, ?_⟩ <;>
    simp [ONE_DAY_MS] <;>
    first
      | omega
      | exact steps_getD_nonneg _

/-- C1 counterexample: the brand-new card rated Good lands on
`learning_stage = 2`, not 1 — the claimed stage is wrong. -/
theorem new_card_good_stage_is_two_not_one :
    (∃ s', schedule brandNewCard 2 0 = Except.ok s' ∧ s'.learning_stage = 2) ∧
      (2:ℤ) ≠ 1 := by
  constructor
  · refine ⟨(⟨1, 481/250, 0, 0, 3600000, 2, 12/25, 0⟩ : SchedulerState),
      ?_, rfl⟩
    simp only [schedule, reviewStep, driftDifficulty, easeFromDifficulty,
      clamp, jsRound, brandNewCard, LEARNING_STEPS_MS, LEECH_LAPSES,
      ONE_MIN_MS, ONE_DAY_MS]
    norm_num
  · decide

/-- C1 (amended): the brand-new card rated 2 (Good) at time `T` comes back
with `learning_stage = 2` (entered at rung 1, advanced one rung),
`due_ts = T + 3600000`, and `reps = 0`, with the difficulty drifted to
0.48 and ease 1.924. -/
theorem schedule_new_card_good (T : ℤ) :
    schedule brandNewCard 2 T = Except.ok
      { ivl_days := 1, ease := 481/250, reps := 0, lapses := 0,
        due_ts := T + 3600000, learning_stage := 2, difficulty := 12/25,
        suspended := 0 } := by
  simp only [schedule, reviewStep, driftDifficulty, easeFromDifficulty, clamp,
    jsRound, brandNewCard, LEARNING_STEPS_MS, LEECH_LAPSES,
    ONE_MIN_MS, ONE_DAY_MS]
  norm_num

/-- C2: suspended cards are never rescheduled — for any valid rating the
call succeeds and every field of the output equals the input's. -/
theorem schedule_suspended_sticky (s : SchedulerState) (r now : ℤ)
    (h1 : s.suspended = 1) (_hvr : r = 0 ∨ r = 1 ∨ r = 2 ∨ r = 3) :
    ∃ s', schedule s r now = Except.ok s' ∧
      s'.ivl_days = s.ivl_days ∧ s'.ease = s.ease ∧ s'.reps = s.reps ∧
      s'.lapses = s.lapses ∧ s'.due_ts = s.due_ts ∧
      s'.learning_stage = s.learning_stage ∧ s'.difficulty = s.difficulty ∧
      s'.suspended = s.suspended :=
  ⟨s, schedule_of_suspended s r now (by simp [h1]),
    rfl, rfl, rfl, rfl, rfl, rfl, rfl, rfl⟩

theorem schedule_suspended_sticky_witness :
    suspendedCard.suspended = 1 ∧
      ((2:ℤ) = 0 ∨ (2:ℤ) = 1 ∨ (2:ℤ) = 2 ∨ (2:ℤ) = 3) ∧
      (∃ s', schedule suspendedCard 2 7 = Except.ok s' ∧
        s'.ivl_days = suspendedCard.ivl_days ∧
        s'.ease = suspendedCard.ease ∧
        s'.reps = suspendedCard.reps ∧
        s'.lapses = suspendedCard.lapses ∧
        s'.due_ts = suspendedCard.due_ts ∧
        s'.learning_stage = suspendedCard.learning_stage ∧
        s'.difficulty = suspendedCard.difficulty ∧
        s'.suspended = suspendedCard.suspended) :=
  ⟨by decide, by decide,
    schedule_suspended_sticky suspendedCard 2 7 (by decide) (by decide)⟩

/-- C3 counterexample: a suspended card with the invalid rating 5 does not
signal `InvalidRating` — the suspension short-circuit runs first. -/
theorem suspended_card_invalid_rating_no_error :
    schedule suspendedCard 5 0 = Except.ok suspendedCard ∧
      ¬((5:ℤ) = 0 ∨ (5:ℤ) = 1 ∨ (5:ℤ) = 2 ∨ (5:ℤ) = 3) := by
  constructor
  · exact schedule_of_suspended _ _ _ (by decide)
  · decide

/-- C3 (amended): for every NON-SUSPENDED input state and every timestamp,
`schedule` signals `InvalidRating` exactly when the rating is outside
{0,1,2,3} (and then no output state is produced); suspended inputs
short-circuit before rating validation. -/
theorem schedule_invalid_rating_iff (s : SchedulerState) (r now : ℤ)
    (hs : s.suspended = 0) :
    schedule s r now = Except.error SchedulerError.invalidRating ↔
      ¬(r = 0 ∨ r = 1 ∨ r = 2 ∨ r = 3) := by
  constructor
  · intro herr hr
    obtain ⟨s', hok, -⟩ := schedule_ok_spec s r now hs hr
    rw [hok] at herr
    exact Except.noConfusion herr
  · intro hr
    push_neg at hr
    obtain ⟨h0, h1, h2, h3⟩ := hr
    simp [schedule, reviewStep, hs, h0, h1, h2, h3]

theorem schedule_invalid_rating_iff_witness :
    brandNewCard.suspended = 0 ∧
      (schedule brandNewCard 5 0 = Except.error SchedulerError.invalidRating ↔
        ¬((5:ℤ) = 0 ∨ (5:ℤ) = 1 ∨ (5:ℤ) = 2 ∨ (5:ℤ) = 3)) :=
  ⟨by decide, schedule_invalid_rating_iff brandNewCard 5 0 (by decide)⟩

/-- C4: rating 0 on any non-suspended state with 7 lapses suspends the card
at 8 lapses; with 6 lapses it reaches 7 lapses and stays unsuspended. -/
theorem schedule_leech_threshold (s : SchedulerState) (now : ℤ)
    (hs : s.suspended = 0) :
    (s.lapses = 7 → ∃ s', schedule s 0 now = Except.ok s' ∧
      s'.suspended = 1 ∧ s'.lapses = 8) ∧
    (s.lapses = 6 → ∃ s', schedule s 0 now = Except.ok s' ∧
      s'.lapses = 7 ∧ s'.suspended = 0) := by
  constructor <;>
    · intro hl
      simp only [schedule, reviewStep, hs, hl, LEECH_LAPSES]
      norm_num
      split_ifs <;> exact ⟨_, rfl, by norm_num⟩

theorem schedule_leech_threshold_witness :
    leechEdgeCard.suspended = 0 ∧ leechEdgeCard.lapses = 7 ∧
      (∃ s', schedule leechEdgeCard 0 0 = Except.ok s' ∧
        s'.suspended = 1 ∧ s'.lapses = 8) :=
  ⟨by decide, by decide,
    (schedule_leech_threshold leechEdgeCard 0 (by decide)).1 (by decide)⟩

/-- C5: the brand-new card rated 3 (Easy) at time `T` graduates at once:
`learning_stage = 0`, `reps = 1`, `difficulty = 0.42`, `ease = 1.996`,
`ivl_days = 6`, `due_ts = T + 6 * 86400000`. -/
theorem schedule_new_card_easy (T : ℤ) :
    schedule brandNewCard 3 T = Except.ok
      { ivl_days := 6, ease := 499/250, reps := 1, lapses := 0,
        due_ts := T + 6 * 86400000, learning_stage := 0, difficulty := 21/50,
        suspended := 0 } := by
  simp only [schedule, reviewStep, driftDifficulty, easeFromDifficulty, clamp,
    jsRound, brandNewCard, LEARNING_STEPS_MS, LEECH_LAPSES,
    ONE_MIN_MS, ONE_DAY_MS]
  norm_num

/-- C6: the graduated card `{ivl_days:10, ease:2.0, reps:5, ...}` rated 0
at time `T` relapses: `lapses = 1`, `learning_stage = 1`,
`due_ts = T + 600000`, `ivl_days = 5`, `reps` unchanged at 5. -/
theorem schedule_review_fail_relapse (T : ℤ) :
    schedule reviewFailCard 0 T = Except.ok
      { ivl_days := 5, ease := 439/250, reps := 5, lapses := 1,
        due_ts := T + 600000, learning_stage := 1, difficulty := 31/50,
        suspended := 0 } := by
  simp only [schedule, reviewStep, driftDifficulty, easeFromDifficulty, clamp,
    jsRound, reviewFailCard, LEARNING_STEPS_MS, LEECH_LAPSES,
    ONE_MIN_MS, ONE_DAY_MS]
  norm_num

/-- C7 counterexample: a suspended input with out-of-range difficulty is
returned unclamped, so the output difficulty bound fails. -/
theorem suspended_card_difficulty_out_of_bounds :
    ∃ s', schedule oddSuspendedCard 2 0 = Except.ok s' ∧
      ¬(0 ≤ s'.difficulty ∧ s'.difficulty ≤ 1) :=
  ⟨oddSuspendedCard, schedule_of_suspended _ _ _ (by decide), by decide⟩

/-- C7 (amended): for every NON-SUSPENDED input state, every valid rating
and every timestamp, the output difficulty lies in [0, 1] and the output
ease lies in [1.3, 2.6]; a suspended input is passed through unchanged. -/
theorem schedule_difficulty_ease_bounds (s : SchedulerState) (r now : ℤ)
    (hs : s.suspended = 0) (hr : r = 0 ∨ r = 1 ∨ r = 2 ∨ r = 3) :
    ∃ s', schedule s r now = Except.ok s' ∧
      0 ≤ s'.difficulty ∧ s'.difficulty ≤ 1 ∧
      13/10 ≤ s'.ease ∧ s'.ease ≤ 26/10 := by
  obtain ⟨s', hok, hd, he, -, -⟩ := schedule_ok_spec s r now hs hr
  obtain ⟨hd0, hd1⟩ := driftDifficulty_mem s.difficulty r hr
  obtain ⟨he0, he1⟩ := easeFromDifficulty_mem (driftDifficulty s.difficulty r)
  exact ⟨s', hok, hd ▸ hd0, hd ▸ hd1, he ▸ he0, he ▸ he1⟩

theorem schedule_difficulty_ease_bounds_witness :
    brandNewCard.suspended = 0 ∧
      ((0:ℤ) = 0 ∨ (0:ℤ) = 1 ∨ (0:ℤ) = 2 ∨ (0:ℤ) = 3) ∧
      (∃ s', schedule brandNewCard 0 0 = Except.ok s' ∧
        0 ≤ s'.difficulty ∧ s'.difficulty ≤ 1 ∧
        13/10 ≤ s'.ease ∧ s'.ease ≤ 26/10) :=
  ⟨by decide, by decide,
    schedule_difficulty_ease_bounds brandNewCard 0 0 (by decide) (by decide)⟩

/-- C8: for every input state, every valid rating and every timestamp, the
output `reps` is at least the input `reps`. -/
theorem schedule_reps_monotone (s : SchedulerState) (r now : ℤ)
    (hr : r = 0 ∨ r = 1 ∨ r = 2 ∨ r = 3) :
    ∃ s', schedule s r now = Except.ok s' ∧ s.reps ≤ s'.reps := by
  by_cases hs : s.suspended = 0
  · obtain ⟨s', hok, -, -, hreps, -⟩ := schedule_ok_spec s r now hs hr
    exact ⟨s', hok, hreps⟩
  · exact ⟨s, schedule_of_suspended s r now hs, le_refl _⟩

theorem schedule_reps_monotone_witness :
    ((1:ℤ) = 0 ∨ (1:ℤ) = 1 ∨ (1:ℤ) = 2 ∨ (1:ℤ) = 3) ∧
      (∃ s', schedule reviewFailCard 1 0 = Except.ok s' ∧
        reviewFailCard.reps ≤ s'.reps) :=
  ⟨by decide, schedule_reps_monotone reviewFailCard 1 0 (by decide)⟩

/-- C9 counterexample: a suspended card keeps its stale `due_ts`, which can
lie strictly before `now`. -/
theorem suspended_card_due_ts_lt_now :
    ∃ s', schedule suspendedCard 2 1 = Except.ok s' ∧ s'.due_ts < 1 :=
  ⟨suspendedCard, schedule_of_suspended _ _ _ (by decide), by decide⟩

/-- C9 (amended): for every NON-SUSPENDED input state, every valid rating
and every timestamp `now`, the output `due_ts` is at least `now`;
suspended inputs keep their stored `due_ts` unchanged. -/
theorem schedule_due_ts_ge_now (s : SchedulerState) (r now : ℤ)
    (hs : s.suspended = 0) (hr : r = 0 ∨ r = 1 ∨ r = 2 ∨ r = 3) :
    ∃ s', schedule s r now = Except.ok s' ∧ now ≤ s'.due_ts := by
  obtain ⟨s', hok, -, -, -, hdue⟩ := schedule_ok_spec s r now hs hr
  exact ⟨s', hok, hdue⟩

theorem schedule_due_ts_ge_now_witness :
    brandNewCard.suspended = 0 ∧
      ((3:ℤ) = 0 ∨ (3:ℤ) = 1 ∨ (3:ℤ) = 2 ∨ (3:ℤ) = 3) ∧
      (∃ s', schedule brandNewCard 3 42 = Except.ok s' ∧ 42 ≤ s'.due_ts) :=
  ⟨by decide, by decide,
    schedule_due_ts_ge_now brandNewCard 3 42 (by decide) (by decide)⟩

/-- C10: the suspension short-circuit precedes rating validation — a
suspended card is returned unchanged for ANY rating value, including
invalid ones such as 5, with no error. -/
theorem schedule_suspended_before_validation (s : SchedulerState)
    (r now : ℤ) (h1 : s.suspended = 1) :
    schedule s r now = Except.ok s :=
  schedule_of_suspended s r now (by simp [h1])

theorem schedule_suspended_before_validation_witness :
    suspendedCard.suspended = 1 ∧
      schedule suspendedCard 5 3 = Except.ok suspendedCard :=
  ⟨by decide, schedule_suspended_before_validation suspendedCard 5 3 (by decide)⟩
